import Mathlib

/-!
Verification development for the alex dental-assistant repository.

This file gives a shallow embedding, in Lean 4, of the parts of the
repository relevant to its specification: the write-behind persistence
layer (`db_manager.py`: `AsyncDatabaseManager`, `OptimizedMetricsCollector`,
`InMemoryMetrics`) and the multi-agent handoff protocol (`alex_agent.py`:
`UserData`, `BaseAgent.on_enter`, `BaseAgent._transfer_to_agent`), together
with theorems settling the specified properties.

Modelling conventions:
- Python floats that the code only compares or stores (metric values,
  thresholds, sample rates, timestamps from `datetime.now()` / `time.time()`)
  are modelled as rationals `ℚ`; timestamps and random draws are passed as
  explicit parameters since they are environment inputs.
- SQLite tables are lists of rows kept in rowid (insertion) order, with the
  `INTEGER PRIMARY KEY AUTOINCREMENT` column modelled as an explicit
  counter in the database state.
- `random.random()` in the sampling gate is an explicit parameter `r`.
- Queues (`collections.deque`) are lists: `append` adds at the right,
  `popleft` removes at the left.
-/

namespace Alex

/-! ## Queue item payloads (db_manager.py)

One entry of `transcript_queue` as built by `queue_transcript`
(db_manager.py lines 308-319): the `message_id or str(uuid.uuid4())`
default is applied at enqueue time, so the stored item always has a
message id. -/

structure TranscriptItem where
  session_id : String
  agent_name : String
  role : String
  content : String
  message_id : String
  metadata : Option String
  timestamp : ℚ
deriving DecidableEq, Repr

/-- One entry of `metrics_queue` as built by `queue_metric`
(db_manager.py lines 347-358). -/
structure MetricItem where
  session_id : String
  metric_type : String
  metric_name : String
  value : ℚ
  unit : Option String
  metadata : Option String
  timestamp : ℚ
deriving DecidableEq, Repr

/-- The `data_snapshot` JSON payload built by `queue_user_data`
(db_manager.py lines 264-269): `json.dumps` of the four customer fields.
The JSON string is modelled by the record of the four fields it
serializes (the serialization is injective on them). -/
structure DataSnapshot where
  customer_name : Option String
  customer_phone : Option String
  booking_date_time : Option String
  booking_reason : Option String
deriving DecidableEq, Repr

/-- One entry of `user_data_queue` as built by `queue_user_data`
(db_manager.py lines 262-279). -/
structure UserDataItem where
  session_id : String
  customer_name : Option String
  customer_phone : Option String
  booking_date_time : Option String
  booking_reason : Option String
  data_snapshot : DataSnapshot
  timestamp : ℚ
deriving DecidableEq, Repr

/-! ## Database tables (db_manager.py `_init_db_sync`, lines 34-193) -/

/-- A row of the `sessions` table (lines 47-58). -/
structure SessionRow where
  id : String
  room_id : String
  participant_id : String
  start_time : ℚ
  end_time : Option ℚ
  duration_seconds : Option Int
  status : String
deriving DecidableEq, Repr

/-- A row of the `transcripts` table (lines 76-88): the autoincrement
`id` plus the columns written by `_flush_transcript_queue`. -/
structure TranscriptRow where
  id : Nat
  item : TranscriptItem
deriving DecidableEq, Repr

/-- A row of the `metrics` table (lines 91-103). -/
structure MetricRow where
  id : Nat
  item : MetricItem
deriving DecidableEq, Repr

/-- A row of the `user_data` table (lines 61-73).  Note the schema: `id
INTEGER PRIMARY KEY AUTOINCREMENT` is the only uniqueness constraint;
there is no UNIQUE constraint on `session_id`. -/
structure UserDataRow where
  id : Nat
  item : UserDataItem
deriving DecidableEq, Repr

/-- A row of the `agent_transfers` table (lines 106-116). -/
structure TransferRow where
  id : Nat
  session_id : String
  from_agent : String
  to_agent : String
  transfer_reason : Option String
deriving DecidableEq, Repr

/-- The SQLite database state: each table is a list of rows in rowid
(insertion) order, and each autoincrement column has its next value. -/
structure Database where
  sessions : List SessionRow
  transcripts : List TranscriptRow
  transcripts_next_id : Nat
  metrics : List MetricRow
  metrics_next_id : Nat
  user_data : List UserDataRow
  user_data_next_id : Nat
  agent_transfers : List TransferRow
  agent_transfers_next_id : Nat
deriving DecidableEq, Repr

/-- A freshly initialized database, as left by `_init_db_sync` on a new
file (the reference tables `patients`, `appointments`, `treatments` are
outside the claims and omitted). -/
def Database.empty : Database :=
  ⟨[], [], 1, [], 1, [], 1, [], 1⟩

/-! ## AsyncDatabaseManager state (db_manager.py lines 16-32)

The manager's in-process state: configuration plus the three batching
queues.  `db_path`, the background task handle and the `should_stop`
flag are not part of the queue/flush semantics modelled here; the
database itself is threaded separately as a `Database` value. -/

structure AsyncDatabaseManager where
  batch_size : Nat
  transcript_queue : List TranscriptItem
  metrics_queue : List MetricItem
  user_data_queue : List UserDataItem
deriving DecidableEq, Repr

/-- A fresh manager with the given `batch_size` (constructor default 100)
and empty queues. -/
def AsyncDatabaseManager.new (batch_size : Nat) : AsyncDatabaseManager :=
  ⟨batch_size, [], [], []⟩

/-- `queue_transcript` (lines 308-319): non-blocking append of one item
to `transcript_queue`.  The fresh uuid used when `message_id` is absent
is passed as `fresh_id`; the `datetime.now()` timestamp as `now`. -/
def queue_transcript (m : AsyncDatabaseManager) (session_id agent_name role content : String)
    (message_id : Option String) (metadata : Option String) (fresh_id : String) (now : ℚ) :
    AsyncDatabaseManager :=
  { m with transcript_queue := m.transcript_queue ++
      [⟨session_id, agent_name, role, content, message_id.getD fresh_id, metadata, now⟩] }

/-- `queue_metric` (lines 347-358): non-blocking append of one item to
`metrics_queue`. -/
def queue_metric (m : AsyncDatabaseManager) (session_id metric_type metric_name : String)
    (value : ℚ) (unit : Option String) (metadata : Option String) (now : ℚ) :
    AsyncDatabaseManager :=
  { m with metrics_queue := m.metrics_queue ++
      [⟨session_id, metric_type, metric_name, value, unit, metadata, now⟩] }

/-- `queue_user_data` (lines 262-279): non-blocking append of one
snapshot of the four customer fields to `user_data_queue`. -/
def queue_user_data (m : AsyncDatabaseManager) (session_id : String)
    (customer_name customer_phone booking_date_time booking_reason : Option String) (now : ℚ) :
    AsyncDatabaseManager :=
  { m with user_data_queue := m.user_data_queue ++
      [⟨session_id, customer_name, customer_phone, booking_date_time, booking_reason,
        ⟨customer_name, customer_phone, booking_date_time, booking_reason⟩, now⟩] }

/-! ## Batch popping and flushing -/

/-- The batch-collection loop shared by the three flush methods
(e.g. lines 326-328): `while queue and len(batch) < batch_size:
batch.append(queue.popleft())`.  Returns the batch and the remaining
queue. -/
def popBatch {α : Type} : Nat → List α → List α × List α
  | 0, q => ([], q)
  | _ + 1, [] => ([], [])
  | n + 1, x :: q =>
    let p := popBatch n q
    (x :: p.1, p.2)

theorem popBatch_eq_take_drop {α : Type} (n : Nat) (q : List α) :
    popBatch n q = (q.take n, q.drop n) := by
  induction n generalizing q with
  | zero => simp [popBatch]
  | succ n ih =>
    cases q with
    | nil => simp [popBatch]
    | cons x q => simp [popBatch, ih]

/-- Assignment of consecutive autoincrement ids to a batch of rows, as
SQLite does for a multi-row `INSERT` via `executemany`. -/
def assignIds {α β : Type} (mk : Nat → α → β) : Nat → List α → List β
  | _, [] => []
  | i, x :: xs => mk i x :: assignIds mk (i + 1) xs

theorem assignIds_map_item {α β : Type} (mk : Nat → α → β) (pay : β → α)
    (h : ∀ i x, pay (mk i x) = x) (i : Nat) (xs : List α) :
    (assignIds mk i xs).map pay = xs := by
  induction xs generalizing i with
  | nil => rfl
  | cons x xs ih => simp [assignIds, h, ih]

theorem assignIds_length {α β : Type} (mk : Nat → α → β) (i : Nat) (xs : List α) :
    (assignIds mk i xs).length = xs.length := by
  induction xs generalizing i with
  | nil => rfl
  | cons x xs ih => simp [assignIds, ih]

/-- `_flush_transcript_queue` (lines 321-345): pop up to `batch_size`
items from the front of `transcript_queue` and, if the batch is
nonempty, write them in one `executemany` `INSERT INTO transcripts`
and commit.  (An empty batch performs no write; appending an empty row
list is the same state, so the early return is not modelled
separately.) -/
def flush_transcript_queue (m : AsyncDatabaseManager) (db : Database) :
    AsyncDatabaseManager × Database :=
  let p := popBatch m.batch_size m.transcript_queue
  ({ m with transcript_queue := p.2 },
   { db with
      transcripts := db.transcripts ++ assignIds (fun i it => ⟨i, it⟩) db.transcripts_next_id p.1,
      transcripts_next_id := db.transcripts_next_id + p.1.length })

/-- `_flush_metrics_queue` (lines 360-384): same shape as the transcript
flush, targeting the `metrics` table. -/
def flush_metrics_queue (m : AsyncDatabaseManager) (db : Database) :
    AsyncDatabaseManager × Database :=
  let p := popBatch m.batch_size m.metrics_queue
  ({ m with metrics_queue := p.2 },
   { db with
      metrics := db.metrics ++ assignIds (fun i it => ⟨i, it⟩) db.metrics_next_id p.1,
      metrics_next_id := db.metrics_next_id + p.1.length })

/-- `_flush_user_data_queue` (lines 281-306): pop up to `batch_size`
items and write them with `INSERT OR REPLACE INTO user_data`.  The
`user_data` schema (lines 61-73) has `id INTEGER PRIMARY KEY
AUTOINCREMENT` as its only uniqueness constraint and the insert does not
supply `id`, so a fresh `id` is assigned to every row and the `OR
REPLACE` clause can never fire: the statement behaves as a plain
`INSERT`, appending one new row per popped item. -/
def flush_user_data_queue (m : AsyncDatabaseManager) (db : Database) :
    AsyncDatabaseManager × Database :=
  let p := popBatch m.batch_size m.user_data_queue
  ({ m with user_data_queue := p.2 },
   { db with
      user_data := db.user_data ++ assignIds (fun i it => ⟨i, it⟩) db.user_data_next_id p.1,
      user_data_next_id := db.user_data_next_id + p.1.length })

/-- `_flush_all_queues` (lines 217-224): flush the three queues.  The
three coroutines touch disjoint queues and disjoint tables, and the
scheduling is single-threaded cooperative, so their combined effect is
their sequential composition. -/
def flush_all_queues (m : AsyncDatabaseManager) (db : Database) :
    AsyncDatabaseManager × Database :=
  let p1 := flush_transcript_queue m db
  let p2 := flush_metrics_queue p1.1 p1.2
  flush_user_data_queue p2.1 p2.2

/-- `stop_background_processing` (lines 200-205): set `should_stop`,
await the background task, then run `_flush_all_queues` once.  The
background loop (lines 207-215) re-checks `should_stop` after its sleep
and exits without flushing again, and when no background task was
started (`background_task is None`) the await is skipped; in both cases
the net effect on the queues and the database after the call is exactly
one `_flush_all_queues`. -/
def stop_background_processing (m : AsyncDatabaseManager) (db : Database) :
    AsyncDatabaseManager × Database :=
  flush_all_queues m db

/-- `create_session` (lines 236-248): immediate insert of one session
row with status defaulting to active.  The generated uuid is the
parameter `session_id`. -/
def create_session (db : Database) (session_id room_id participant_id : String) (now : ℚ) :
    Database :=
  { db with sessions := db.sessions ++ [⟨session_id, room_id, participant_id, now, none, none, "active"⟩] }

/-- The `user_data` component of `get_session_data` (lines 407-409 and
433): `SELECT * FROM user_data WHERE session_id = ?` followed by
`fetchone()`.  The query has no ORDER BY, so SQLite scans the table in
rowid order and `fetchone` returns the row with the smallest rowid for
the session, or `None`. -/
def get_session_data_user_data (db : Database) (session_id : String) : Option UserDataRow :=
  (db.user_data.filter (fun r => r.item.session_id == session_id)).head?

/-- The `transcripts` component of `get_session_data` (lines 412-417):
all transcript rows of the session. -/
def get_session_data_transcripts (db : Database) (session_id : String) : List TranscriptRow :=
  db.transcripts.filter (fun r => r.item.session_id == session_id)

/-! ## OptimizedMetricsCollector (db_manager.py lines 550-591) -/

/-- The configuration of `OptimizedMetricsCollector` (lines 553-559):
constructor defaults `sample_rate = 0.1`, `latency_threshold = 0.1`.
The `db_manager` reference is threaded separately; `metric_counts` is
written nowhere in the source and omitted. -/
structure OptimizedMetricsCollector where
  session_id : String
  sample_rate : ℚ
  latency_threshold : ℚ
deriving DecidableEq, Repr

/-- The fixed critical allow-list of `should_collect_metric`
(lines 564-569). -/
def critical_metrics : List String :=
  ["session_duration", "agent_transfer", "error_rate", "booking_completion"]

/-- `should_collect_metric` (lines 561-576): critical names always pass;
other names pass when `random.random() < sample_rate`.  The random draw
is the explicit parameter `r`. -/
def should_collect_metric (c : OptimizedMetricsCollector) (metric_name : String) (r : ℚ) :
    Bool :=
  if metric_name ∈ critical_metrics then true else decide (r < c.sample_rate)

/-- Python `str.lower()`, modelled characterwise with `Char.toLower`;
metric names are ASCII, where the two agree. -/
def pyLower (s : String) : String :=
  ⟨s.data.map Char.toLower⟩

/-- The latency-drop test inside `collect_metric` (line 585):
`'latency' in metric_name.lower() and value < self.latency_threshold`
— Python string containment is list infix on the characters. -/
def is_low_latency_metric (c : OptimizedMetricsCollector) (metric_name : String) (value : ℚ) :
    Bool :=
  decide (List.IsInfix "latency".data (pyLower metric_name).data)
    && decide (value < c.latency_threshold)

/-- `collect_metric` (lines 578-591): drop the observation unless the
sampling gate passes and it is not a low-value latency metric; otherwise
enqueue it via `queue_metric`.  `r` is the `random.random()` draw made
inside `should_collect_metric`; `now` is the enqueue timestamp. -/
def collect_metric (c : OptimizedMetricsCollector) (m : AsyncDatabaseManager)
    (metric_type metric_name : String) (value : ℚ) (unit : Option String)
    (metadata : Option String) (r : ℚ) (now : ℚ) : AsyncDatabaseManager :=
  if ¬ should_collect_metric c metric_name r then m
  else if is_low_latency_metric c metric_name value then m
  else queue_metric m c.session_id metric_type metric_name value unit metadata now

/-- The specification-level `should_collect(metric_name)` decision of
§4.2, taking the offered value into account: this is the complete
admission decision that `collect_metric` implements before calling
`queue_metric` — the sampling gate composed with the latency drop. -/
def should_collect (c : OptimizedMetricsCollector) (metric_name : String) (value : ℚ) (r : ℚ) :
    Bool :=
  should_collect_metric c metric_name r && ! is_low_latency_metric c metric_name value

/-! ## InMemoryMetrics (db_manager.py lines 595-614)

`self.metrics` is a Python dict; it is modelled as an association list
with unique keys in insertion order: assigning to an existing key
replaces its entry in place, assigning a new key appends it. -/

/-- The entry stored per key by `InMemoryMetrics.update` (lines 602-605):
the value and a `time.time()` timestamp. -/
structure MetricEntry where
  value : ℚ
  timestamp : ℚ
deriving DecidableEq, Repr

/-- The `InMemoryMetrics` state (lines 596-598). -/
structure InMemoryMetrics where
  metrics : List (String × MetricEntry)
  last_update : ℚ
deriving DecidableEq, Repr

/-- `InMemoryMetrics.__init__` (lines 596-598): empty dict, the
construction time as `last_update`. -/
def InMemoryMetrics.init (now : ℚ) : InMemoryMetrics :=
  ⟨[], now⟩

/-- Python dict assignment `d[k] = v`: replace the entry of `k` in place
when present, otherwise append `(k, v)`. -/
def dictSet (l : List (String × MetricEntry)) (k : String) (v : MetricEntry) :
    List (String × MetricEntry) :=
  match l with
  | [] => [(k, v)]
  | (k0, v0) :: rest =>
    if k0 = k then (k0, v) :: rest else (k0, v0) :: dictSet rest k v

/-- Python dict lookup `d.get(k)`: the entry of the first pair with key
`k`. -/
def dictGet (l : List (String × MetricEntry)) (k : String) : Option MetricEntry :=
  match l with
  | [] => none
  | (k0, v0) :: rest => if k0 = k then some v0 else dictGet rest k

/-- `InMemoryMetrics.update` (lines 600-606): `self.metrics[key] =
value-and-timestamp dict; self.last_update = time.time()`.  Both
`time.time()` calls of the body are the parameter `now`. -/
def InMemoryMetrics.update (m : InMemoryMetrics) (key : String) (value : ℚ) (now : ℚ) :
    InMemoryMetrics :=
  ⟨dictSet m.metrics key ⟨value, now⟩, now⟩

/-- The `total_metrics` component of `InMemoryMetrics.get_summary`
(lines 608-614): `len(self.metrics)`. -/
def InMemoryMetrics.get_summary_total_metrics (m : InMemoryMetrics) : Nat :=
  m.metrics.length

/-! ## Agents and handoff (alex_agent.py)

The livekit `ChatContext` is an external collaborator; it is modelled at
its interface boundary as an id-tagged message list, with the operations
`on_enter` uses (`copy` with `exclude_instructions=True,
exclude_function_call=False`, `truncate(max_items)`, `add_message`)
given their documented semantics: system/instruction items are excluded
by the copy, function-call items are kept, and truncation keeps the most
recent `max_items` items. -/

/-- One context item: a stable identity, a role (`system`, `user`,
`assistant`, `function_call`) and content. -/
structure ChatItem where
  id : String
  role : String
  content : String
deriving DecidableEq, Repr

/-- A livekit chat context: an ordered list of items. -/
structure ChatContext where
  items : List ChatItem
deriving DecidableEq, Repr

/-- A dialogue agent, as the handoff protocol sees it: its class name
(used for display and dispatch) and its chat context. -/
structure Agent where
  name : String
  chat_ctx : ChatContext
deriving DecidableEq, Repr

/-- The `UserData` dataclass (alex_agent.py lines 32-61): the four
customer fields, the fixed agent registry, the previous agent, the
in-memory metrics, and the recording flag.  The database handle and
session id are threaded separately where an operation uses them. -/
structure UserData where
  customer_name : Option String
  customer_phone : Option String
  booking_date_time : Option String
  booking_reason : Option String
  agents : List (String × Agent)
  prev_agent : Option Agent
  in_memory_metrics : InMemoryMetrics
  enable_recording : Bool
deriving DecidableEq, Repr

/-- `UserData.summarize` (lines 63-70): `yaml.dump` of the four customer
fields with `"unknown"` for unset ones.  `yaml.dump` emits keys sorted
alphabetically, one `key: value` line each. -/
def UserData.summarize (u : UserData) : String :=
  "booking_date_time: " ++ u.booking_date_time.getD "unknown" ++ "\n" ++
  "booking_reason: " ++ u.booking_reason.getD "unknown" ++ "\n" ++
  "customer_name: " ++ u.customer_name.getD "unknown" ++ "\n" ++
  "customer_phone: " ++ u.customer_phone.getD "unknown" ++ "\n"

/-- The failure of a handoff whose target is not in the registry (the
specification names it `UnknownAgentError`; in the implementation it is
the `KeyError` raised by the dict lookup `userdata.agents[name]`). -/
inductive TransferError where
  | unknownAgent (name : String)
deriving DecidableEq, Repr

/-- Python dict lookup `agents[name]` on the registry: the value of the
matching key, or `none` (a raised `KeyError`) when the key is absent. -/
def lookupAgent (agents : List (String × Agent)) (name : String) : Option Agent :=
  match agents with
  | [] => none
  | (k, a) :: rest => if k = name then some a else lookupAgent rest name

/-- `BaseAgent._transfer_to_agent` (alex_agent.py lines 517-537).  The
dict lookup `userdata.agents[name]` is the first statement of the body,
so when it raises `KeyError` no mutation has happened and the caller's
`UserData` is unchanged: the error branch returns `u` as is.  On
success: record `prev_agent`, update the in-memory metric
`agent_transfers` to 1, fire-and-forget the best-effort audit write of
the transfer (an asynchronous `save_agent_transfer` task targeting the
`agent_transfers` table; not part of the synchronous effect), and return
the resolved agent with the empty transition message (a silent
transfer). -/
def transfer_to_agent (u : UserData) (current_agent : Agent) (name : String) (now : ℚ) :
    UserData × Except TransferError (Agent × String) :=
  match lookupAgent u.agents name with
  | none => (u, Except.error (TransferError.unknownAgent name))
  | some next_agent =>
    let u1 := { u with prev_agent := some current_agent }
    let u2 := { u1 with in_memory_metrics := u1.in_memory_metrics.update "agent_transfers" 1 now }
    (u2, Except.ok (next_agent, ""))

/-- The most recent `n` items of a list: what `ChatContext.truncate
(max_items=n)` keeps. -/
def takeLast {α : Type} (n : Nat) (l : List α) : List α :=
  l.drop (l.length - n)

/-- `prev_agent.chat_ctx.copy(exclude_instructions=True,
exclude_function_call=False)`: the clone keeps every item except the
instruction/system messages. -/
def copy_no_instructions (ctx : ChatContext) : ChatContext :=
  ⟨ctx.items.filter (fun it => it.role ≠ "system")⟩

/-- `ChatContext.truncate(max_items)`: keep the most recent `max_items`
items. -/
def ChatContext.truncate (ctx : ChatContext) (max_items : Nat) : ChatContext :=
  ⟨takeLast max_items ctx.items⟩

/-- The carry-over computation of `on_enter` (alex_agent.py lines
486-493): clone the previous context excluding instructions, truncate to
the last 6 items, and drop every item whose id is already present in the
entered agent's own context. -/
def carried_items (prev : Agent) (chat_ctx : ChatContext) : List ChatItem :=
  let truncated := ((copy_no_instructions prev.chat_ctx).truncate 6).items
  truncated.filter (fun it => ¬ it.id ∈ chat_ctx.items.map ChatItem.id)

/-- The content of the fresh system message `on_enter` appends
(alex_agent.py lines 499-505). -/
def entry_system_content (agent_name current_time : String) (u : UserData) : String :=
  "You are " ++ agent_name ++ " agent. Current date and time: " ++ current_time ++ ". " ++
  "SmileRight Dental Clinic is located at 5561 St-Denis Street, Montreal, Canada. " ++
  "Clinic hours: Monday to Friday 8:00 AM - 12:00 PM and 1:00 PM - 6:00 PM. " ++
  "Current user data is " ++ u.summarize

/-- `BaseAgent.on_enter` (alex_agent.py lines 467-515): update the
in-memory entry metric, enqueue the lightweight entry transcript when
recording is on, then build the agent's working context: own context,
plus the deduplicated truncated carry-over from the previous agent, plus
one fresh system message carrying the current `summarize()` snapshot,
plus (for the Greeter only) one fresh synthetic user message.  `now` is
the `time.time()` value, `current_time` the formatted `datetime.now()`,
`entry_uuid` the transcript message id, and `sys_id`/`user_id` the ids
`add_message` assigns to the freshly appended items.  Returns the
resulting context together with the updated metrics and manager. -/
def on_enter (agent : Agent) (u : UserData) (m : AsyncDatabaseManager)
    (session_id : Option String) (now : ℚ) (current_time : String)
    (entry_uuid sys_id user_id : String) :
    ChatContext × InMemoryMetrics × AsyncDatabaseManager :=
  let agent_name := agent.name
  let chat_ctx := agent.chat_ctx
  let metrics1 := u.in_memory_metrics.update ("agent_" ++ agent_name ++ "_entered") now now
  let m1 :=
    match u.enable_recording, session_id with
    | true, some sid =>
      queue_transcript m sid agent_name "system" ("Agent " ++ agent_name ++ " entered")
        none none entry_uuid now
    | _, _ => m
  let items1 := chat_ctx.items ++
    (match u.prev_agent with
     | some prev => carried_items prev chat_ctx
     | none => [])
  let items2 := items1 ++ [⟨sys_id, "system", entry_system_content agent_name current_time u⟩]
  let items3 :=
    if agent_name = "Greeter" then
      items2 ++ [⟨user_id, "user", "[System: User has connected to the call]"⟩]
    else items2
  (⟨items3⟩, metrics1, m1)

/-! ## Derived forms of the flush operations -/

theorem assignIds_transcript_map (i : Nat) (xs : List TranscriptItem) :
    (assignIds (fun i it => (⟨i, it⟩ : TranscriptRow)) i xs).map TranscriptRow.item = xs :=
  assignIds_map_item _ _ (fun _ _ => rfl) i xs

theorem assignIds_metric_map (i : Nat) (xs : List MetricItem) :
    (assignIds (fun i it => (⟨i, it⟩ : MetricRow)) i xs).map MetricRow.item = xs :=
  assignIds_map_item _ _ (fun _ _ => rfl) i xs

theorem assignIds_user_data_map (i : Nat) (xs : List UserDataItem) :
    (assignIds (fun i it => (⟨i, it⟩ : UserDataRow)) i xs).map UserDataRow.item = xs :=
  assignIds_map_item _ _ (fun _ _ => rfl) i xs

/-- Complete characterization of one `_flush_all_queues` tick: each
queue loses its oldest `batch_size` items, each table gains exactly
those items as fresh rows, and nothing else changes. -/
theorem flush_all_queues_spec (m : AsyncDatabaseManager) (db : Database) :
    flush_all_queues m db =
      (⟨m.batch_size,
        m.transcript_queue.drop m.batch_size,
        m.metrics_queue.drop m.batch_size,
        m.user_data_queue.drop m.batch_size⟩,
       ⟨db.sessions,
        db.transcripts ++ assignIds (fun i it => ⟨i, it⟩) db.transcripts_next_id
          (m.transcript_queue.take m.batch_size),
        db.transcripts_next_id + (m.transcript_queue.take m.batch_size).length,
        db.metrics ++ assignIds (fun i it => ⟨i, it⟩) db.metrics_next_id
          (m.metrics_queue.take m.batch_size),
        db.metrics_next_id + (m.metrics_queue.take m.batch_size).length,
        db.user_data ++ assignIds (fun i it => ⟨i, it⟩) db.user_data_next_id
          (m.user_data_queue.take m.batch_size),
        db.user_data_next_id + (m.user_data_queue.take m.batch_size).length,
        db.agent_transfers,
        db.agent_transfers_next_id⟩) := by
  simp [flush_all_queues, flush_transcript_queue, flush_metrics_queue,
    flush_user_data_queue, popBatch_eq_take_drop]

/-! ## Claim C7 -/

/-- Claim C7: each drain tick pops up to `batch_size` items from each of
the three queues and performs one grouped multi-row write per queue
type: a single flush persists exactly the `min(k, batch_size)` oldest
items of each queue, in order, and leaves the remaining items in their
original FIFO order. -/
theorem C7_flush_pops_one_batch_per_queue (m : AsyncDatabaseManager) (db : Database) :
    (flush_all_queues m db).1.transcript_queue = m.transcript_queue.drop m.batch_size ∧
    (flush_all_queues m db).1.metrics_queue = m.metrics_queue.drop m.batch_size ∧
    (flush_all_queues m db).1.user_data_queue = m.user_data_queue.drop m.batch_size ∧
    (flush_all_queues m db).2.transcripts.map TranscriptRow.item
      = db.transcripts.map TranscriptRow.item ++ m.transcript_queue.take m.batch_size ∧
    (flush_all_queues m db).2.metrics.map MetricRow.item
      = db.metrics.map MetricRow.item ++ m.metrics_queue.take m.batch_size ∧
    (flush_all_queues m db).2.user_data.map UserDataRow.item
      = db.user_data.map UserDataRow.item ++ m.user_data_queue.take m.batch_size ∧
    (m.transcript_queue.take m.batch_size).length
      = min m.transcript_queue.length m.batch_size ∧
    (m.metrics_queue.take m.batch_size).length
      = min m.metrics_queue.length m.batch_size ∧
    (m.user_data_queue.take m.batch_size).length
      = min m.user_data_queue.length m.batch_size := by
  refine ⟨?_, ?_, ?_, ?_, ?_, ?_, ?_, ?_, ?_⟩ <;>
    simp [flush_all_queues_spec, assignIds_transcript_map, assignIds_metric_map,
      assignIds_user_data_map, List.length_take, Nat.min_comm]

/-! ## Claim C5 -/

/-- Claim C5: every metric name on the fixed critical allow-list
(session duration, transfer count, error rate, booking completion)
passes `should_collect_metric` for every collector configuration and
every random draw, including `sample_rate = 0.0`. -/
theorem C5_critical_metrics_always_pass (c : OptimizedMetricsCollector) (name : String)
    (r : ℚ) (h : name ∈ critical_metrics) :
    should_collect_metric c name r = true := by
  simp [should_collect_metric, h]

/-- Witness for C5: with `sample_rate = 0.0`, `should_collect_metric`
still accepts the critical metric `error_rate`. -/
theorem C5_witness :
    "error_rate" ∈ critical_metrics ∧
      should_collect_metric ⟨"s1", 0, 1/10⟩ "error_rate" (1/2) = true :=
  ⟨by decide, C5_critical_metrics_always_pass ⟨"s1", 0, 1/10⟩ "error_rate" (1/2) (by decide)⟩

/-! ## Claim C4 -/

/-- Claim C4: a metric whose name contains `latency` and whose value is
strictly below `latency_threshold` is dropped: `collect_metric` leaves
the manager (hence the metrics queue) unchanged for every random draw,
including draws accepted by any `sample_rate`; and the specification
level admission decision `should_collect` is false for
`tts_latency_ms` at such a value. -/
theorem C4_low_latency_metric_dropped (c : OptimizedMetricsCollector)
    (m : AsyncDatabaseManager) (metric_type name : String) (value : ℚ)
    (unit metadata : Option String) (r now : ℚ)
    (hname : List.IsInfix "latency".data (pyLower name).data)
    (hval : value < c.latency_threshold) :
    collect_metric c m metric_type name value unit metadata r now = m ∧
      should_collect c "tts_latency_ms" value r = false := by
  have hlow : is_low_latency_metric c name value = true := by
    simp [is_low_latency_metric, hname, hval]
  constructor
  · unfold collect_metric
    split
    · rfl
    · simp [hlow]
  · have htts : List.IsInfix "latency".data (pyLower "tts_latency_ms").data := by decide
    simp [should_collect, is_low_latency_metric, htts, hval]

/-- Witness for C4: with `sample_rate = 1.0` (every draw accepted) and
the default `latency_threshold = 0.1`, the offered `tts_latency_ms`
observation of value `0.05` is dropped. -/
theorem C4_witness :
    List.IsInfix "latency".data (pyLower "tts_latency_ms").data ∧
      (1 / 20 : ℚ) < (1 / 10 : ℚ) ∧
      (collect_metric ⟨"s1", 1, 1/10⟩ (AsyncDatabaseManager.new 100) "pipeline"
          "tts_latency_ms" (1/20) none none 0 7 = AsyncDatabaseManager.new 100 ∧
        should_collect ⟨"s1", 1, 1/10⟩ "tts_latency_ms" (1/20) 0 = false) :=
  ⟨by decide, by norm_num,
    C4_low_latency_metric_dropped ⟨"s1", 1, 1/10⟩ (AsyncDatabaseManager.new 100) "pipeline"
      "tts_latency_ms" (1/20) none none 0 7 (by decide) (by norm_num)⟩

/-! ## Claim C3 -/

/-- Claim C3: a handoff to a target name absent from the fixed agent
registry fails (the `KeyError` of the registry lookup, the
specification's `UnknownAgentError`) and performs no state mutation:
the returned `UserData` — fields, `prev_agent` and in-memory metrics —
is exactly the input state. -/
theorem C3_unknown_agent_fails_without_mutation (u : UserData) (current_agent : Agent)
    (name : String) (now : ℚ) (h : lookupAgent u.agents name = none) :
    transfer_to_agent u current_agent name now
      = (u, Except.error (TransferError.unknownAgent name)) := by
  simp [transfer_to_agent, h]

/-- A concrete greeter agent used by the handoff witnesses. -/
def greeter0 : Agent := ⟨"Greeter", ⟨[]⟩⟩

/-- A concrete `UserData` whose registry holds only the greeter. -/
def userdata0 : UserData :=
  ⟨none, none, none, none, [("greeter", greeter0)], none, InMemoryMetrics.init 0, false⟩

/-- A concrete current agent for the handoff witnesses. -/
def booking0 : Agent := ⟨"BookingAgent", ⟨[]⟩⟩

/-- Witness for C3: transferring to the unregistered name
`nonexistent_agent` fails and returns the state unchanged. -/
theorem C3_witness :
    lookupAgent userdata0.agents "nonexistent_agent" = none ∧
      transfer_to_agent userdata0 booking0 "nonexistent_agent" 3
        = (userdata0, Except.error (TransferError.unknownAgent "nonexistent_agent")) :=
  ⟨by decide,
    C3_unknown_agent_fails_without_mutation userdata0 booking0 "nonexistent_agent" 3 (by decide)⟩

/-! ## Claim C10 -/

/-- Claim C10: every successful transfer is silent: for every registered
target name, `_transfer_to_agent` returns the resolved agent paired
with the user-facing transition message being exactly the empty
string. -/
theorem C10_successful_transfer_is_silent (u : UserData) (current_agent : Agent)
    (name : String) (now : ℚ) (a : Agent) (h : lookupAgent u.agents name = some a) :
    (transfer_to_agent u current_agent name now).2 = Except.ok (a, "") := by
  simp [transfer_to_agent, h]

/-- Witness for C10: the registered name `greeter` resolves and the
transition message is the empty string. -/
theorem C10_witness :
    lookupAgent userdata0.agents "greeter" = some greeter0 ∧
      (transfer_to_agent userdata0 booking0 "greeter" 3).2 = Except.ok (greeter0, "") :=
  ⟨by decide,
    C10_successful_transfer_is_silent userdata0 booking0 "greeter" 3 greeter0 (by decide)⟩

/-! ## Claim C9 -/

/-- One recorded `InMemoryMetrics.update(key, value)` call, with the
`time.time()` value observed during the call. -/
structure UpdateCall where
  key : String
  value : ℚ
  time : ℚ
deriving DecidableEq, Repr

/-- A sequence of `InMemoryMetrics.update` calls applied in order. -/
def apply_updates (m : InMemoryMetrics) (us : List UpdateCall) : InMemoryMetrics :=
  us.foldl (fun acc u => acc.update u.key u.value u.time) m

/-- The claim's characterization of the stored entry: the value and
timestamp of the most recent update with the given key, if any. -/
def lastUpdateSpec (k : String) : List UpdateCall → Option MetricEntry
  | [] => none
  | u :: us =>
    match lastUpdateSpec k us with
    | some e => some e
    | none => if u.key = k then some ⟨u.value, u.time⟩ else none

theorem dictGet_dictSet (l : List (String × MetricEntry)) (k : String) (v : MetricEntry)
    (k1 : String) :
    dictGet (dictSet l k v) k1 = if k1 = k then some v else dictGet l k1 := by
  induction l with
  | nil =>
    by_cases h : k1 = k
    · subst h
      simp [dictSet, dictGet]
    · have h2 : ¬ k = k1 := fun hh => h hh.symm
      simp [dictSet, dictGet, h, h2]
  | cons p rest ih =>
    obtain ⟨k0, v0⟩ := p
    by_cases h0 : k0 = k
    · subst h0
      by_cases h1 : k1 = k0
      · subst h1
        simp [dictSet, dictGet]
      · have h2 : ¬ k0 = k1 := fun hh => h1 hh.symm
        simp [dictSet, dictGet, h1, h2]
    · by_cases h1 : k0 = k1
      · subst h1
        have h2 : ¬ k0 = k := h0
        simp [dictSet, dictGet, h2]
      · simp [dictSet, dictGet, h0, h1, ih]

theorem dictGet_apply_updates (us : List UpdateCall) (m : InMemoryMetrics) (k : String) :
    dictGet (apply_updates m us).metrics k
      = match lastUpdateSpec k us with
        | some e => some e
        | none => dictGet m.metrics k := by
  induction us generalizing m with
  | nil => simp [apply_updates, lastUpdateSpec]
  | cons u us ih =>
    have step : apply_updates m (u :: us) = apply_updates (m.update u.key u.value u.time) us := rfl
    rw [step, ih]
    cases hrec : lastUpdateSpec k us with
    | some e => simp [lastUpdateSpec, hrec]
    | none =>
      by_cases h : u.key = k
      · subst h
        simp [lastUpdateSpec, hrec, InMemoryMetrics.update, dictGet_dictSet]
      · have h2 : ¬ k = u.key := fun h1 => h h1.symm
        simp [lastUpdateSpec, hrec, InMemoryMetrics.update, dictGet_dictSet, h, h2]

theorem dictSet_keys (l : List (String × MetricEntry)) (k : String) (v : MetricEntry) :
    (dictSet l k v).map Prod.fst
      = if k ∈ l.map Prod.fst then l.map Prod.fst else l.map Prod.fst ++ [k] := by
  induction l with
  | nil => simp [dictSet]
  | cons p rest ih =>
    obtain ⟨k0, v0⟩ := p
    by_cases h0 : k0 = k
    · subst h0
      simp [dictSet]
    · have h0s : ¬ k = k0 := fun h1 => h0 h1.symm
      by_cases hmem : k ∈ rest.map Prod.fst
      · simp [dictSet, h0, ih, hmem, h0s]
      · simp [dictSet, h0, ih, hmem, h0s]

theorem mem_keys_apply_updates (us : List UpdateCall) (m : InMemoryMetrics) (x : String) :
    x ∈ (apply_updates m us).metrics.map Prod.fst
      ↔ x ∈ m.metrics.map Prod.fst ∨ x ∈ us.map UpdateCall.key := by
  induction us generalizing m with
  | nil => simp [apply_updates]
  | cons u us ih =>
    have step : apply_updates m (u :: us) = apply_updates (m.update u.key u.value u.time) us := rfl
    rw [step, ih]
    by_cases hmem : u.key ∈ m.metrics.map Prod.fst
    · simp only [InMemoryMetrics.update, dictSet_keys, hmem, if_true, List.map_cons,
        List.mem_cons]
      constructor
      · exact fun h => h.elim (fun h1 => Or.inl h1) (fun h1 => Or.inr (Or.inr h1))
      · rintro (h1 | h1 | h1)
        · exact Or.inl h1
        · exact Or.inl (h1 ▸ hmem)
        · exact Or.inr h1
    · simp only [InMemoryMetrics.update, dictSet_keys, hmem, if_false, List.map_cons,
        List.mem_cons, List.mem_append, List.mem_singleton]
      tauto

theorem nodup_keys_apply_updates (us : List UpdateCall) (m : InMemoryMetrics)
    (hm : (m.metrics.map Prod.fst).Nodup) :
    ((apply_updates m us).metrics.map Prod.fst).Nodup := by
  induction us generalizing m with
  | nil => exact hm
  | cons u us ih =>
    have step : apply_updates m (u :: us) = apply_updates (m.update u.key u.value u.time) us := rfl
    rw [step]
    refine ih _ ?_
    by_cases hmem : u.key ∈ m.metrics.map Prod.fst
    · simpa [InMemoryMetrics.update, dictSet_keys, hmem] using hm
    · simp [InMemoryMetrics.update, dictSet_keys, hmem, List.nodup_append, hm]

/-- Claim C9: `InMemoryMetrics.update` is last-write-wins, not
accumulating: after any sequence of update calls on a fresh store, the
entry of each key is exactly the value and timestamp of the most recent
update with that key (so repeated `update(k, 1)` calls leave the value
1), and `get_summary` reports `total_metrics` equal to the number of
distinct keys ever updated. -/
theorem C9_update_is_last_write_wins (us : List UpdateCall) (t0 : ℚ) :
    (∀ k, dictGet (apply_updates (InMemoryMetrics.init t0) us).metrics k = lastUpdateSpec k us) ∧
    (apply_updates (InMemoryMetrics.init t0) us).get_summary_total_metrics
      = (us.map UpdateCall.key).toFinset.card ∧
    (∀ k t1 t2, dictGet
        (apply_updates (InMemoryMetrics.init t0) [⟨k, 1, t1⟩, ⟨k, 1, t2⟩]).metrics k
      = some ⟨1, t2⟩) := by
  refine ⟨?_, ?_, ?_⟩
  · intro k
    rw [dictGet_apply_updates]
    cases hrec : lastUpdateSpec k us with
    | some e => rfl
    | none => simp [InMemoryMetrics.init, dictGet]
  · have hnodup : (((apply_updates (InMemoryMetrics.init t0) us).metrics.map Prod.fst)).Nodup :=
      nodup_keys_apply_updates us _ (by simp [InMemoryMetrics.init])
    have hsame : ((apply_updates (InMemoryMetrics.init t0) us).metrics.map Prod.fst).toFinset
        = (us.map UpdateCall.key).toFinset := by
      ext x
      rw [List.mem_toFinset, List.mem_toFinset, mem_keys_apply_updates]
      simp [InMemoryMetrics.init]
    calc (apply_updates (InMemoryMetrics.init t0) us).get_summary_total_metrics
        = ((apply_updates (InMemoryMetrics.init t0) us).metrics.map Prod.fst).length := by
          simp [InMemoryMetrics.get_summary_total_metrics]
      _ = ((apply_updates (InMemoryMetrics.init t0) us).metrics.map Prod.fst).toFinset.card :=
          (List.toFinset_card_of_nodup hnodup).symm
      _ = (us.map UpdateCall.key).toFinset.card := by rw [hsame]
  · intro k t1 t2
    simp [apply_updates, InMemoryMetrics.init, InMemoryMetrics.update, dictSet, dictGet]

/-! ## Claim C6 -/

/-- A sequence of `queue_transcript` calls, one per item: each call
passes the item's fields, supplying its message id explicitly (a call
relying on the uuid default produces the same item with `fresh_id` as
message id, so quantifying over the item list covers both forms). -/
def enqueue_transcript_seq (m : AsyncDatabaseManager) (calls : List TranscriptItem) :
    AsyncDatabaseManager :=
  calls.foldl
    (fun acc it =>
      queue_transcript acc it.session_id it.agent_name it.role it.content
        (some it.message_id) it.metadata it.message_id it.timestamp)
    m

theorem enqueue_transcript_seq_spec (m : AsyncDatabaseManager) (calls : List TranscriptItem) :
    enqueue_transcript_seq m calls
      = { m with transcript_queue := m.transcript_queue ++ calls } := by
  induction calls generalizing m with
  | nil => simp [enqueue_transcript_seq]
  | cons c calls ih =>
    have step : enqueue_transcript_seq m (c :: calls)
        = enqueue_transcript_seq
            (queue_transcript m c.session_id c.agent_name c.role c.content
              (some c.message_id) c.metadata c.message_id c.timestamp) calls := rfl
    rw [step, ih]
    simp [queue_transcript]

/-- `n` consecutive drain ticks of the background processor loop
(db_manager.py lines 207-215), each tick being one `_flush_all_queues`
call. -/
def flushRepeat : Nat → AsyncDatabaseManager → Database → AsyncDatabaseManager × Database
  | 0, m, db => (m, db)
  | n + 1, m, db =>
    let p := flush_all_queues m db
    flushRepeat n p.1 p.2

theorem flushRepeat_drains_transcripts (n : Nat) (m : AsyncDatabaseManager) (db : Database)
    (hbs : 0 < m.batch_size) (hlen : m.transcript_queue.length ≤ n * m.batch_size) :
    (flushRepeat n m db).1.transcript_queue = [] ∧
    (flushRepeat n m db).2.transcripts.map TranscriptRow.item
      = db.transcripts.map TranscriptRow.item ++ m.transcript_queue := by
  induction n generalizing m db with
  | zero =>
    have hq : m.transcript_queue = [] := by
      have := hlen
      simp only [Nat.zero_mul, Nat.le_zero] at this
      exact List.eq_nil_of_length_eq_zero this
    simp [flushRepeat, hq]
  | succ n ih =>
    have step : flushRepeat (n + 1) m db
        = flushRepeat n (flush_all_queues m db).1 (flush_all_queues m db).2 := rfl
    rw [step, flush_all_queues_spec]
    have hbs1 : 0 < m.batch_size := hbs
    have hlen1 : (m.transcript_queue.drop m.batch_size).length ≤ n * m.batch_size := by
      simp only [List.length_drop]
      have := hlen
      calc m.transcript_queue.length - m.batch_size
          ≤ (n + 1) * m.batch_size - m.batch_size := Nat.sub_le_sub_right this _
        _ = n * m.batch_size := by ring_nf; omega
    obtain ⟨h1, h2⟩ := ih
      ⟨m.batch_size, m.transcript_queue.drop m.batch_size,
        m.metrics_queue.drop m.batch_size, m.user_data_queue.drop m.batch_size⟩
      _ hbs1 hlen1
    refine ⟨h1, ?_⟩
    rw [h2]
    simp [assignIds_transcript_map, List.take_append_drop]

/-- Claim C6: for every sequence of `queue_transcript` calls on a fresh
manager, followed by a forced flush that drains the queue (one drain
tick per enqueued item is always enough when `batch_size` is positive),
the transcript queue is empty and the persisted transcript rows are
exactly the enqueued items in enqueue order — FIFO, no duplication, no
loss. -/
theorem C6_transcripts_fifo_no_dup_no_loss (calls : List TranscriptItem) (batch_size : Nat)
    (db : Database) (hbs : 0 < batch_size) :
    (flushRepeat calls.length
        (enqueue_transcript_seq (AsyncDatabaseManager.new batch_size) calls) db).1.transcript_queue
      = [] ∧
    (flushRepeat calls.length
        (enqueue_transcript_seq (AsyncDatabaseManager.new batch_size) calls) db).2.transcripts.map
          TranscriptRow.item
      = db.transcripts.map TranscriptRow.item ++ calls := by
  have henq : enqueue_transcript_seq (AsyncDatabaseManager.new batch_size) calls
      = ⟨batch_size, calls, [], []⟩ := by
    rw [enqueue_transcript_seq_spec]
    simp [AsyncDatabaseManager.new]
  rw [henq]
  have h := flushRepeat_drains_transcripts calls.length ⟨batch_size, calls, [], []⟩ db hbs
    (by simpa using Nat.le_mul_of_pos_right calls.length hbs)
  exact h

/-- A small concrete transcript item for the C6 witness. -/
def tItem (k : Nat) : TranscriptItem :=
  ⟨"s1", "Greeter", "user", "hello", "m" ++ toString k, none, (k : ℚ)⟩

/-- Witness for C6: three enqueued transcripts, `batch_size = 2`,
drained; the persisted rows are exactly the three items in order. -/
theorem C6_witness :
    0 < 2 ∧
      ((flushRepeat [tItem 1, tItem 2, tItem 3].length
          (enqueue_transcript_seq (AsyncDatabaseManager.new 2) [tItem 1, tItem 2, tItem 3])
          Database.empty).1.transcript_queue = [] ∧
        (flushRepeat [tItem 1, tItem 2, tItem 3].length
          (enqueue_transcript_seq (AsyncDatabaseManager.new 2) [tItem 1, tItem 2, tItem 3])
          Database.empty).2.transcripts.map TranscriptRow.item
        = Database.empty.transcripts.map TranscriptRow.item ++ [tItem 1, tItem 2, tItem 3]) :=
  ⟨by decide,
    C6_transcripts_fifo_no_dup_no_loss [tItem 1, tItem 2, tItem 3] 2 Database.empty (by decide)⟩

/-! ## Claim C8 -/

theorem takeLast_length {α : Type} (n : Nat) (l : List α) :
    (takeLast n l).length = min n l.length := by
  simp only [takeLast, List.length_drop]
  omega

theorem mem_takeLast {α : Type} {a : α} {n : Nat} {l : List α} (h : a ∈ takeLast n l) :
    a ∈ l :=
  List.mem_of_mem_drop h

/-- Every item carried over by `on_enter` has a non-system role and an
id that is not already present in the entered agent's own context. -/
theorem carried_items_mem_spec (prev : Agent) (ctx : ChatContext) (it : ChatItem)
    (h : it ∈ carried_items prev ctx) :
    it.role ≠ "system" ∧ ¬ it.id ∈ ctx.items.map ChatItem.id := by
  simp only [carried_items, List.mem_filter, decide_eq_true_eq] at h
  obtain ⟨h1, h2⟩ := h
  refine ⟨?_, h2⟩
  have h3 := mem_takeLast (show it ∈ takeLast 6 (copy_no_instructions prev.chat_ctx).items from h1)
  simp only [copy_no_instructions, List.mem_filter, decide_eq_true_eq] at h3
  exact h3.2

/-- The carry-over is bounded by the previous context's length capped
at 6. -/
theorem carried_items_length (prev : Agent) (ctx : ChatContext) :
    (carried_items prev ctx).length ≤ min prev.chat_ctx.items.length 6 := by
  have h1 : (carried_items prev ctx).length
      ≤ (takeLast 6 (copy_no_instructions prev.chat_ctx).items).length := by
    simp only [carried_items, ChatContext.truncate]
    exact List.length_filter_le _ _
  have h2 := takeLast_length 6 (copy_no_instructions prev.chat_ctx).items
  have h3 : (copy_no_instructions prev.chat_ctx).items.length ≤ prev.chat_ctx.items.length := by
    simp only [copy_no_instructions]
    exact List.length_filter_le _ _
  omega

/-- When a previous agent exists, the context `on_enter` builds is the
entered agent's own items, then the carry-over, then the fresh system
message, then (for the Greeter only) the fresh synthetic user
message. -/
theorem on_enter_items_decomposition (agent : Agent) (u : UserData) (m : AsyncDatabaseManager)
    (sid : Option String) (now : ℚ) (ct eu si ui : String) (A : Agent)
    (hprev : u.prev_agent = some A) :
    (on_enter agent u m sid now ct eu si ui).1.items
      = agent.chat_ctx.items ++ (carried_items A agent.chat_ctx
        ++ [⟨si, "system", entry_system_content agent.name ct u⟩]
        ++ (if agent.name = "Greeter"
            then [⟨ui, "user", "[System: User has connected to the call]"⟩] else [])) := by
  by_cases hg : agent.name = "Greeter" <;>
    simp [on_enter, hprev, hg]

/-- Claim C8: after a handoff from agent A to agent B, the context
`on_enter` builds for B is B's own context followed by the carried
items and the fresh messages; the carried items number at most
`min(L, 6)` where L is the length of A's context; no carried item's id
equals an id already present in B's context; and among the freshly
appended items there is exactly one system message, whose content
includes the current `summarize()` output of the structured state. -/
theorem C8_handoff_context_bounded_dedup (A B : Agent) (u : UserData)
    (m : AsyncDatabaseManager) (sid : Option String) (now : ℚ) (ct eu si ui : String)
    (hprev : u.prev_agent = some A) :
    (on_enter B u m sid now ct eu si ui).1.items
      = B.chat_ctx.items ++ (carried_items A B.chat_ctx
        ++ [⟨si, "system", entry_system_content B.name ct u⟩]
        ++ (if B.name = "Greeter"
            then [⟨ui, "user", "[System: User has connected to the call]"⟩] else [])) ∧
    (carried_items A B.chat_ctx).length ≤ min A.chat_ctx.items.length 6 ∧
    (∀ it ∈ carried_items A B.chat_ctx, ¬ it.id ∈ B.chat_ctx.items.map ChatItem.id) ∧
    ((on_enter B u m sid now ct eu si ui).1.items.drop B.chat_ctx.items.length).filter
        (fun it => it.role == "system")
      = [⟨si, "system", entry_system_content B.name ct u⟩] ∧
    List.IsInfix u.summarize.data (entry_system_content B.name ct u).data := by
  have hdec := on_enter_items_decomposition B u m sid now ct eu si ui A hprev
  refine ⟨hdec, carried_items_length A B.chat_ctx,
    fun it hit => (carried_items_mem_spec A B.chat_ctx it hit).2, ?_, ?_⟩
  · rw [hdec, List.drop_left]
    have hcar : (carried_items A B.chat_ctx).filter (fun it => it.role == "system") = [] := by
      rw [List.filter_eq_nil_iff]
      intro it hit
      have := (carried_items_mem_spec A B.chat_ctx it hit).1
      simpa using this
    by_cases hg : B.name = "Greeter" <;>
      simp [hg, List.filter_append, hcar]
  · refine ⟨("You are " ++ B.name ++ " agent. Current date and time: " ++ ct ++ ". " ++
      "SmileRight Dental Clinic is located at 5561 St-Denis Street, Montreal, Canada. " ++
      "Clinic hours: Monday to Friday 8:00 AM - 12:00 PM and 1:00 PM - 6:00 PM. " ++
      "Current user data is ").data, [], ?_⟩
    rw [List.append_nil]
    rfl

/-- A previous agent with a short mixed context for the C8 witness. -/
def prevAgent0 : Agent :=
  ⟨"IdentificationAgent",
    ⟨[⟨"i1", "system", "instructions"⟩, ⟨"i2", "user", "hello"⟩,
      ⟨"i3", "assistant", "hi there"⟩]⟩⟩

/-- The entered agent for the C8 witness, already holding one item that
also occurs in the previous context. -/
def enteredAgent0 : Agent := ⟨"BookingAgent", ⟨[⟨"i2", "user", "hello"⟩]⟩⟩

/-- The user data for the C8 witness: previous agent recorded. -/
def userdata1 : UserData :=
  ⟨some "Ann", none, none, none, [], some prevAgent0, InMemoryMetrics.init 0, false⟩

/-- Witness for C8: the handoff context construction evaluated at a
concrete pair of agents. -/
theorem C8_witness :
    userdata1.prev_agent = some prevAgent0 ∧
      ((on_enter enteredAgent0 userdata1 (AsyncDatabaseManager.new 100) (some "s1") 5 "Monday"
          "e1" "sys1" "usr1").1.items
        = enteredAgent0.chat_ctx.items ++ (carried_items prevAgent0 enteredAgent0.chat_ctx
          ++ [⟨"sys1", "system", entry_system_content enteredAgent0.name "Monday" userdata1⟩]
          ++ (if enteredAgent0.name = "Greeter"
              then [⟨"usr1", "user", "[System: User has connected to the call]"⟩] else [])) ∧
        (carried_items prevAgent0 enteredAgent0.chat_ctx).length
          ≤ min prevAgent0.chat_ctx.items.length 6 ∧
        (∀ it ∈ carried_items prevAgent0 enteredAgent0.chat_ctx,
          ¬ it.id ∈ enteredAgent0.chat_ctx.items.map ChatItem.id) ∧
        ((on_enter enteredAgent0 userdata1 (AsyncDatabaseManager.new 100) (some "s1") 5 "Monday"
            "e1" "sys1" "usr1").1.items.drop enteredAgent0.chat_ctx.items.length).filter
            (fun it => it.role == "system")
          = [⟨"sys1", "system", entry_system_content enteredAgent0.name "Monday" userdata1⟩] ∧
        List.IsInfix userdata1.summarize.data
          (entry_system_content enteredAgent0.name "Monday" userdata1).data) :=
  ⟨rfl,
    C8_handoff_context_bounded_dedup prevAgent0 enteredAgent0 userdata1
      (AsyncDatabaseManager.new 100) (some "s1") 5 "Monday" "e1" "sys1" "usr1" rfl⟩

/-! ## Claim C1 -/

/-- The database for the C1 evaluation: a fresh store with one
session. -/
def c1_db : Database := create_session Database.empty "s1" "room1" "caller1" 0

/-- Two `queue_user_data` calls with the identical session id and
identical field values, enqueued at times 1 and 2. -/
def c1_manager : AsyncDatabaseManager :=
  queue_user_data
    (queue_user_data (AsyncDatabaseManager.new 100) "s1" (some "Ann") (some "5551234")
      (some "2025-01-20 10:00") (some "cleaning") 1)
    "s1" (some "Ann") (some "5551234") (some "2025-01-20 10:00") (some "cleaning") 2

/-- Claim C1 fails on the code as written: after enqueueing the
identical snapshot twice and flushing, the `user_data` table holds two
rows for the session, not one — the `INSERT OR REPLACE` of
`_flush_user_data_queue` never replaces because the schema gives
`user_data` no uniqueness constraint on `session_id` and the
autoincrement id is fresh per row — and the `fetchone` of
`get_session_data` (no ORDER BY) returns the first, oldest row
(enqueue time 1), not the latest snapshot. -/
theorem C1_duplicate_snapshot_rows :
    ((flush_user_data_queue c1_manager c1_db).2.user_data.filter
        (fun r => r.item.session_id == "s1")).length = 2 ∧
      (get_session_data_user_data (flush_user_data_queue c1_manager c1_db).2 "s1").map
          (fun r => r.item.timestamp)
        = some 1 := by
  refine ⟨rfl, rfl⟩

/-! ## Claim C2 -/

/-- A manager with `batch_size = 1` holding two enqueued transcripts at
the moment shutdown is requested. -/
def c2_manager : AsyncDatabaseManager :=
  queue_transcript
    (queue_transcript (AsyncDatabaseManager.new 1) "s1" "Greeter" "user" "hello"
      none none "u1" 1)
    "s1" "Greeter" "assistant" "hi" none none "u2" 2

/-- Claim C2 fails on the code as written: the final
`_flush_all_queues` of `stop_background_processing` pops at most
`batch_size` items per queue, so with two queued transcripts and
`batch_size = 1` the transcript queue is still nonempty after shutdown
returns and only one of the two enqueued items was written to
storage. -/
theorem C2_final_flush_leaves_items_queued :
    (stop_background_processing c2_manager Database.empty).1.transcript_queue ≠ [] ∧
      ((stop_background_processing c2_manager Database.empty).2.transcripts.map
          TranscriptRow.item).length = 1 := by
  refine ⟨by decide, rfl⟩

end Alex
